import Mathlib

/-!
Shallow embedding of `src/tui.rs` of spytrap-adb: the interactive
scan-orchestration core (device directory, scan session lifecycle,
message bus, input handling, event loop and render model).

Modelling conventions:
* Rust `usize` arithmetic uses `Nat` (`saturating_sub` is `Nat` subtraction).
* External collaborators (adb host, IOC repository, rule loader, scan
  algorithm) are parameterised by an `Env` record giving each call's outcome.
* A Rust panic (out-of-bounds index) is modelled as `none`; an `Err` return
  is `Except.error`.
* The spawned scan task's `tokio::select!` race is modelled by a
  `TaskOutcome`: either the cancellation arm wins after some prefix of the
  findings was forwarded, or the `run_scan` future wins.
-/

namespace Spytrap

/-- An opaque finding record (`iocs::Suspicion`); the core only stores and
renders it (`raw` stands for its Debug formatting). -/
structure Suspicion where
  raw : String
  deriving DecidableEq

/-- `forensic_adb::DeviceInfo`: serial plus free-form attribute map. -/
structure DeviceInfo where
  serial : String
  info : List (String × String)
  deriving DecidableEq

/-- `tui::Message`: the bus message type. -/
inductive Message where
  | ScanEnded
  | Suspicion (sus : Suspicion)
  deriving DecidableEq

/-- The mutable application state of `tui::App` (channel endpoints and the
adb host handle are factored into `Env`; the cancellation sender is kept as
`Option Unit` since only its presence is observable to this core). -/
structure App where
  devices : List DeviceInfo
  cursor : Nat
  report : Option (List Suspicion)
  cancel_scan : Option Unit
  deriving DecidableEq

/-- `App::new`: empty device list, cursor 0, no report, no active scan. -/
def initApp : App :=
  { devices := [], cursor := 0, report := none, cancel_scan := none }

instance {ε α : Type} [DecidableEq ε] [DecidableEq α] : DecidableEq (Except ε α) := fun a b =>
  match a, b with
  | Except.error x, Except.error y =>
    if h : x = y then isTrue (by rw [h]) else isFalse (fun hh => h (Except.error.inj hh))
  | Except.error _, Except.ok _ => isFalse (fun hh => Except.noConfusion hh)
  | Except.ok _, Except.error _ => isFalse (fun hh => Except.noConfusion hh)
  | Except.ok x, Except.ok y =>
    if h : x = y then isTrue (by rw [h]) else isFalse (fun hh => h (Except.ok.inj hh))

/-- Outcomes of the external collaborator calls made by the tui core. -/
structure Env where
  listDevices : Except String (List DeviceInfo)
  connectDevice : Except String Unit
  iocFilePath : Except String String
  loadRules : Except String Unit
  scanFindings : List Suspicion
  scanResult : Except String Unit
  deriving DecidableEq

/-- `App::key_up`: `self.cursor = self.cursor.saturating_sub(1)`. -/
def key_up (app : App) : App :=
  { app with cursor := app.cursor - 1 }

/-- `App::key_down`: increment the cursor only while it is below
`devices.len().saturating_sub(1)`. -/
def key_down (app : App) : App :=
  if app.cursor < app.devices.length - 1 then
    { app with cursor := app.cursor + 1 }
  else
    app

/-- The successful body of `App::refresh_devices`: replace the device list
wholesale, then re-clamp the cursor when it no longer indexes a device
(the source's `match len { 0 => 0, n => n - 1 }` is `len - 1` on `Nat`). -/
def refresh_with (ds : List DeviceInfo) (app : App) : App :=
  if (ds.get? app.cursor).isNone then
    { app with devices := ds, cursor := ds.length - 1 }
  else
    { app with devices := ds }

/-- `App::refresh_devices`: query the adb host; on failure propagate the
error without touching the state, on success replace and re-clamp. -/
def refresh_devices (env : Env) (app : App) : Except String App :=
  match env.listDevices with
  | Except.error e => Except.error ("Failed to list devices from adb: " ++ e)
  | Except.ok ds => Except.ok (refresh_with ds app)

/-- `App::init`: initial device listing (no cursor clamp in the source). -/
def App.init (env : Env) (app : App) : Except String App :=
  match env.listDevices with
  | Except.error e => Except.error ("Failed to list devices from adb: " ++ e)
  | Except.ok ds => Except.ok { app with devices := ds }

/-- The crossterm key codes matched by `handle_key` (all other codes behave
like the wildcard arm and are absorbed into `Char`/`Event.Other`). -/
inductive KeyCode where
  | Esc
  | Enter
  | Up
  | Down
  | Char (c : Char)
  deriving DecidableEq

/-- The modifier values compared against in `handle_key`'s patterns
(`OTHER` stands for any other modifier combination). -/
inductive KeyModifiers where
  | NONE
  | CONTROL
  | SHIFT
  | OTHER
  deriving DecidableEq

/-- `crossterm::event::KeyEvent` restricted to the fields the code matches. -/
structure KeyEvent where
  code : KeyCode
  modifiers : KeyModifiers
  deriving DecidableEq

/-- `crossterm::event::Event`: key events plus everything else. -/
inductive Event where
  | Key (k : KeyEvent)
  | Other
  deriving DecidableEq

/-- `tui::Action`, the value `handle_key` hands back to the loop. -/
inductive Action where
  | Shutdown
  | Clear
  deriving DecidableEq

/-- The key bindings: the (mutually exclusive) patterns of the `match` in
`handle_key`, in source order; everything else is the wildcard no-op arm. -/
inductive Binding where
  | quit
  | forceQuit
  | enter
  | up
  | down
  | refresh
  | clear
  | noop
  deriving DecidableEq

/-- Which arm of `handle_key`'s `match event` a raw event selects. -/
def bindingOf : Event → Binding
  | Event.Key ⟨KeyCode.Esc, KeyModifiers.NONE⟩ => Binding.quit
  | Event.Key ⟨KeyCode.Char 'c', KeyModifiers.CONTROL⟩ => Binding.quit
  | Event.Key ⟨KeyCode.Char 'q', KeyModifiers.NONE⟩ => Binding.quit
  | Event.Key ⟨KeyCode.Char 'Q', KeyModifiers.SHIFT⟩ => Binding.forceQuit
  | Event.Key ⟨KeyCode.Enter, KeyModifiers.NONE⟩ => Binding.enter
  | Event.Key ⟨KeyCode.Up, KeyModifiers.NONE⟩ => Binding.up
  | Event.Key ⟨KeyCode.Down, KeyModifiers.NONE⟩ => Binding.down
  | Event.Key ⟨KeyCode.Char 'r', KeyModifiers.CONTROL⟩ => Binding.refresh
  | Event.Key ⟨KeyCode.Char 'l', KeyModifiers.CONTROL⟩ => Binding.clear
  | _ => Binding.noop

/-- The Enter key event used by concrete scenarios. -/
def enterEv : Event := Event.Key ⟨KeyCode.Enter, KeyModifiers.NONE⟩

/-- The result of one `handle_key` call: the updated state, the returned
action, which device (if any) a scan task was spawned for, and whether a
cancellation signal was sent. -/
structure HKOut where
  app : App
  action : Option Action
  spawned : Option DeviceInfo
  cancelSent : Bool
  deriving DecidableEq

/-- `tui::run_scan` as executed inside the spawned task: resolve the device
connection, locate the IOC file, load the rule map, then run the scan which
forwards its findings as `Suspicion` messages. Returns the messages the call
sends on the bus together with its `Result`. -/
def run_scan (env : Env) (device : DeviceInfo) : List Message × Except String Unit :=
  match env.connectDevice with
  | Except.error e =>
    ([], Except.error ("Failed to access device: " ++ device.serial ++ ": " ++ e))
  | Except.ok _ =>
    match env.iocFilePath with
    | Except.error e => ([], Except.error e)
    | Except.ok _ =>
      match env.loadRules with
      | Except.error e => ([], Except.error ("Failed to load rules: " ++ e))
      | Except.ok _ => (env.scanFindings.map Message.Suspicion, env.scanResult)

/-- How the spawned task's `tokio::select!` race resolves: the cancellation
arm wins after `k` findings were already forwarded (the `run_scan` future is
abandoned), or the `run_scan` future wins (normally or with an error). -/
inductive TaskOutcome where
  | cancelled (k : Nat)
  | completed
  deriving DecidableEq

/-- All messages a spawned scan task puts on the bus: the findings forwarded
before the race resolved, then the single `ScanEnded` sent by the winning
arm of the `select!`. -/
def scan_task (env : Env) (device : DeviceInfo) : TaskOutcome → List Message
  | TaskOutcome.cancelled k => ((run_scan env device).1.take k) ++ [Message.ScanEnded]
  | TaskOutcome.completed => (run_scan env device).1 ++ [Message.ScanEnded]

/-- `tui::handle_key`. Outer `none` models the panic of the unchecked index
`app.devices[app.cursor]` in the Enter arm; `Except.error` models the `?`
propagation from `refresh_devices` in the Ctrl+R arm. -/
def handle_key (env : Env) (app : App) (ev : Event) : Option (Except String HKOut) :=
  match bindingOf ev with
  | Binding.quit =>
    match app.cancel_scan with
    | some _ =>
      some (Except.ok { app := { app with cancel_scan := none },
                        action := none, spawned := none, cancelSent := true })
    | none =>
      match app.report with
      | some _ =>
        some (Except.ok { app := { app with report := none },
                          action := none, spawned := none, cancelSent := false })
      | none =>
        some (Except.ok { app := app, action := some Action.Shutdown,
                          spawned := none, cancelSent := false })
  | Binding.forceQuit =>
    some (Except.ok { app := app, action := some Action.Shutdown,
                      spawned := none, cancelSent := false })
  | Binding.enter =>
    match app.devices.get? app.cursor with
    | none => none
    | some device =>
      some (Except.ok { app := { app with report := some [], cancel_scan := some () },
                        action := none, spawned := some device, cancelSent := false })
  | Binding.up =>
    some (Except.ok { app := key_up app, action := none,
                      spawned := none, cancelSent := false })
  | Binding.down =>
    some (Except.ok { app := key_down app, action := none,
                      spawned := none, cancelSent := false })
  | Binding.refresh =>
    match refresh_devices env app with
    | Except.error e => some (Except.error e)
    | Except.ok app2 =>
      some (Except.ok { app := app2, action := none,
                        spawned := none, cancelSent := false })
  | Binding.clear =>
    some (Except.ok { app := app, action := some Action.Clear,
                      spawned := none, cancelSent := false })
  | Binding.noop =>
    some (Except.ok { app := app, action := none,
                      spawned := none, cancelSent := false })

/-- The bus-message arm of `tui::run`'s `select!`: `ScanEnded` takes the
cancellation handle; `Suspicion` is appended to the report when one exists
and discarded otherwise. -/
def handle_message (app : App) : Message → App
  | Message.ScanEnded => { app with cancel_scan := none }
  | Message.Suspicion sus =>
    match app.report with
    | some report => { app with report := some (report ++ [sus]) }
    | none => app

/-- Deliver a list of bus messages to the loop in order. -/
def deliverAll (app : App) (ms : List Message) : App :=
  ms.foldl handle_message app

/-- Modelled from the spec: `utils::human_option_str` lives outside the
core source file; it renders an optional attribute value as text. -/
def human_option_str : Option String → String
  | some s => s
  | none => "-"

/-- `DeviceInfo.info.get(key)` (a map lookup in `forensic_adb`). -/
def infoGet (d : DeviceInfo) (key : String) : Option String :=
  (d.info.find? fun p => p.1 == key).map fun p => p.2

/-- The text of one device row in the device list widget. -/
def deviceRowMsg (d : DeviceInfo) : String :=
  d.serial ++ (" device=") ++ human_option_str (infoGet d ("device"))
    ++ (", model=") ++ human_option_str (infoGet d ("model"))
    ++ (", product=") ++ human_option_str (infoGet d ("product"))

/-- One rendered row of the device list: highlight flag plus text. -/
structure DeviceRow where
  selected : Bool
  msg : String
  deriving DecidableEq

/-- The body widget of the third layout chunk in `tui::ui`. -/
inductive BodyWidget where
  | findingsList (items : List String)
  | deviceList (rows : List DeviceRow)
  deriving DecidableEq

/-- The observable output of `tui::ui`: the scanning/idle status indicator
and the body widget (the static help text and styling carry no state). -/
structure Layout where
  statusScanning : Bool
  body : BodyWidget
  deriving DecidableEq

/-- Debug formatting of a finding, as used by the findings list. -/
def fmtSuspicion (s : Suspicion) : String := s.raw

/-- The device rows rendered by `tui::ui`: index `i` is selected exactly
when it equals the cursor. -/
def deviceRows (app : App) : List DeviceRow :=
  app.devices.enum.map fun p => { selected := p.1 == app.cursor, msg := deviceRowMsg p.2 }

/-- `tui::ui`: status line says scanning iff a cancellation handle is held;
the body is the findings list when a report is present, the device list
otherwise. -/
def ui (app : App) : Layout :=
  { statusScanning := app.cancel_scan.isSome,
    body :=
      match app.report with
      | some report => BodyWidget.findingsList (report.map fmtSuspicion)
      | none => BodyWidget.deviceList (deviceRows app) }

/-- A whole-system configuration: the loop's state, the devices being
scanned by the currently running spawned tasks, and the in-flight bus
messages (FIFO). `halted` records that the loop has terminated. -/
structure Sys where
  app : App
  tasks : List DeviceInfo
  bus : List Message
  halted : Bool
  deriving DecidableEq

/-- An atomic system event: an interpreted input arrives, a running scan
task's `select!` race resolves (placing its messages on the bus), or the
loop consumes the front bus message. -/
inductive SysEvent where
  | input (ev : Event)
  | resolveTask (i : Nat) (o : TaskOutcome)
  | deliver
  deriving DecidableEq

/-- One system step. `none` marks configurations where the event cannot
fire (loop halted or bus empty), a panic, or an error that terminates the
loop. -/
def sysStep (env : Env) (s : Sys) : SysEvent → Option Sys
  | SysEvent.input ev =>
    if s.halted then none
    else
      match handle_key env s.app ev with
      | none => none
      | some (Except.error _) => none
      | some (Except.ok out) =>
        some { app := out.app,
               tasks := s.tasks ++ (match out.spawned with
                                    | some d => [d]
                                    | none => []),
               bus := s.bus,
               halted := match out.action with
                         | some Action.Shutdown => true
                         | _ => false }
  | SysEvent.resolveTask i o =>
    match s.tasks.get? i with
    | none => none
    | some d =>
      some { s with tasks := s.tasks.eraseIdx i, bus := s.bus ++ scan_task env d o }
  | SysEvent.deliver =>
    if s.halted then none
    else
      match s.bus with
      | [] => none
      | m :: rest => some { s with app := handle_message s.app m, bus := rest }

/-- Run a sequence of system events from a configuration. -/
def sysRun (env : Env) : Sys → List SysEvent → Option Sys
  | s, [] => some s
  | s, e :: es =>
    match sysStep env s e with
    | none => none
    | some s2 => sysRun env s2 es

/-- Initial system configuration after `App::init` listed `ds`. -/
def sys0 (ds : List DeviceInfo) : Sys :=
  { app := { initApp with devices := ds }, tasks := [], bus := [], halted := false }

/-- A device fixture for the concrete scenarios. -/
def d1 : DeviceInfo := { serial := "emulator-5554", info := [] }

/-- An environment where every collaborator call succeeds and the scan
yields no findings. -/
def envOk : Env :=
  { listDevices := Except.ok [d1],
    connectDevice := Except.ok (),
    iocFilePath := Except.ok ("ioc.yaml"),
    loadRules := Except.ok (),
    scanFindings := [],
    scanResult := Except.ok () }

/-- An environment where resolving the device connection fails. -/
def envBadConnect : Env := { envOk with connectDevice := Except.error ("gone") }

/-- An environment where loading the indicator rules fails. -/
def envBadRules : Env := { envOk with loadRules := Except.error ("corrupt") }

/-- Recogniser for the `ScanEnded` bus message. -/
def Message.isScanEnded : Message → Bool
  | Message.ScanEnded => true
  | Message.Suspicion _ => false

/-- Cursor validity: the cursor indexes a device, or is 0 on an empty list. -/
def cursorInv (app : App) : Prop :=
  app.cursor < app.devices.length ∨ (app.devices.length = 0 ∧ app.cursor = 0)

instance (app : App) : Decidable (cursorInv app) := by
  unfold cursorInv
  infer_instance

/-- The operations the Device Directory undergoes: navigation, a successful
refresh replacing the list with `ds`, or a failed refresh (the adb error
propagates before any mutation). -/
inductive NavOp where
  | up
  | down
  | refresh (ds : List DeviceInfo)
  | refreshFailed
  deriving DecidableEq

/-- Apply one Device Directory operation. -/
def applyOp (app : App) : NavOp → App
  | NavOp.up => key_up app
  | NavOp.down => key_down app
  | NavOp.refresh ds => refresh_with ds app
  | NavOp.refreshFailed => app

/-- Apply a sequence of Device Directory operations. -/
def applyOps (app : App) (ops : List NavOp) : App :=
  ops.foldl applyOp app

/-- The state right after `App::init` found the single device `d1`. -/
def app1 : App := { initApp with devices := [d1] }

/-- A three-device directory with the cursor on the last row. -/
def app3 : App := { devices := [d1, d1, d1], cursor := 2, report := none, cancel_scan := none }

/-- A state with an active scan session and an open (empty) report. -/
def appScanning : App :=
  { devices := [d1], cursor := 0, report := some [], cancel_scan := some () }

/-- A system configuration in which one scan task is already running. -/
def sysActive : Sys :=
  { app := appScanning, tasks := [d1], bus := [], halted := false }

theorem cursorInv_key_up {app : App} (h : cursorInv app) : cursorInv (key_up app) := by
  simp only [cursorInv, key_up] at h ⊢
  omega

theorem cursorInv_key_down {app : App} (h : cursorInv app) : cursorInv (key_down app) := by
  unfold key_down
  split
  next hc =>
    simp only [cursorInv] at h ⊢
    omega
  next hc => exact h

theorem cursorInv_refresh_with (ds : List DeviceInfo) (app : App) :
    cursorInv (refresh_with ds app) := by
  unfold refresh_with
  split
  next hnone =>
    simp only [cursorInv]
    omega
  next hsome =>
    have hlt : app.cursor < ds.length := by
      by_contra hc
      push_neg at hc
      rw [List.get?_eq_none.mpr hc] at hsome
      simp at hsome
    simp only [cursorInv]
    omega

/-- Claim C5: for every sequence of navigate (key up/down) and refresh
operations applied to the Device Directory, afterwards the cursor is a
valid index into the current device sequence, or 0 when the sequence is
empty. -/
theorem cursor_always_valid (app : App) (ops : List NavOp) (h : cursorInv app) :
    cursorInv (applyOps app ops) := by
  induction ops generalizing app with
  | nil => exact h
  | cons op ops ih =>
    show cursorInv (applyOps (applyOp app op) ops)
    cases op with
    | up => exact ih _ (cursorInv_key_up h)
    | down => exact ih _ (cursorInv_key_down h)
    | refresh ds => exact ih _ (cursorInv_refresh_with ds app)
    | refreshFailed => exact ih _ h

theorem cursor_always_valid_witness :
    cursorInv (applyOps initApp
      [NavOp.down, NavOp.refresh [d1, d1], NavOp.down, NavOp.up, NavOp.refresh [], NavOp.up]) :=
  cursor_always_valid initApp _ (by decide)

/-- Claim C9: cursor navigation is bounded and saturating — up at index 0
stays at 0, down at the last index (or on an empty list) is a no-op, and
otherwise each step moves the cursor by exactly one. -/
theorem navigation_saturating (app : App) :
    (app.cursor = 0 → (key_up app).cursor = 0)
  ∧ (0 < app.cursor → (key_up app).cursor + 1 = app.cursor)
  ∧ ((app.devices = [] ∨ app.cursor + 1 = app.devices.length) → key_down app = app)
  ∧ (app.cursor + 1 < app.devices.length → (key_down app).cursor = app.cursor + 1) := by
  refine ⟨?_, ?_, ?_, ?_⟩
  · intro h
    simp [key_up, h]
  · intro h
    simp only [key_up]
    omega
  · intro h
    have hc : ¬ app.cursor < app.devices.length - 1 := by
      rcases h with h | h
      · simp [h]
      · omega
    simp [key_down, hc]
  · intro h
    have hc : app.cursor < app.devices.length - 1 := by omega
    simp [key_down, hc]

theorem navigation_saturating_witness :
    key_down app3 = app3 ∧ (key_up { app3 with cursor := 0 }).cursor = 0 :=
  ⟨(navigation_saturating app3).2.2.1 (Or.inr (by decide)),
   (navigation_saturating { app3 with cursor := 0 }).1 rfl⟩

/-- Claim C10: the render function is a pure function of the state —
rendering twice gives identical output — and its body is the findings view
exactly when a Report is present. -/
theorem render_deterministic_and_view (app : App) :
    ui app = ui app
  ∧ ((∃ items, (ui app).body = BodyWidget.findingsList items) ↔ app.report.isSome) := by
  refine ⟨rfl, ?_⟩
  rcases h : app.report with _ | r
  · simp [ui, h]
  · simp [ui, h]

theorem not_scanEnded_mem_run_scan (env : Env) (d : DeviceInfo) :
    ∀ m ∈ (run_scan env d).1, Message.isScanEnded m = false := by
  intro m hm
  unfold run_scan at hm
  rcases hc : env.connectDevice with e | u <;> rw [hc] at hm
  · simp at hm
  · rcases hp : env.iocFilePath with e | p <;> rw [hp] at hm
    · simp at hm
    · rcases hr : env.loadRules with e | u2 <;> rw [hr] at hm
      · simp at hm
      · simp only [List.mem_map] at hm
        obtain ⟨s, _, hs⟩ := hm
        rw [← hs]
        rfl

/-- Claim C3: every spawned scan task puts exactly one `ScanEnded` message
on the bus — whether cancelled (after any prefix of findings) or run to
completion (normally or with an internal error) — and the Event Loop's
handler for `ScanEnded` clears the session handle (retaining the rest of
the state, the Report included). -/
theorem scan_ended_exactly_once (env : Env) (d : DeviceInfo) (o : TaskOutcome) :
    ((scan_task env d o).filter Message.isScanEnded).length = 1
  ∧ ∀ a : App, handle_message a Message.ScanEnded = { a with cancel_scan := none } := by
  constructor
  · have hnil : ∀ l : List Message, (∀ m ∈ l, Message.isScanEnded m = false) →
        l.filter Message.isScanEnded = [] := by
      intro l hl
      induction l with
      | nil => rfl
      | cons x xs ih =>
        have hx := hl x (List.mem_cons_self x xs)
        rw [List.filter_cons, hx]
        simp only [Bool.false_eq_true, if_false]
        exact ih fun m hm => hl m (List.mem_cons_of_mem x hm)
    cases o with
    | cancelled k =>
      have h1 : ((run_scan env d).1.take k).filter Message.isScanEnded = [] :=
        hnil _ fun m hm => not_scanEnded_mem_run_scan env d m (List.take_subset k _ hm)
      simp [scan_task, List.filter_append, h1, Message.isScanEnded]
    | completed =>
      have h1 : (run_scan env d).1.filter Message.isScanEnded = [] :=
        hnil _ (not_scanEnded_mem_run_scan env d)
      simp [scan_task, List.filter_append, h1, Message.isScanEnded]
  · intro a
    rfl

/-- Claim C6: the Esc / Ctrl+C / q binding dispatches by priority — with an
active session it only sends the cancellation signal (the report and the
loop are untouched), otherwise with a Report present it dismisses the
Report (and the body reverts to the device list), otherwise it shuts the
loop down. -/
theorem quit_key_priority (env : Env) (app : App) (ev : Event)
    (h : bindingOf ev = Binding.quit) :
    (∀ u, app.cancel_scan = some u →
      handle_key env app ev =
        some (Except.ok { app := { app with cancel_scan := none },
                          action := none, spawned := none, cancelSent := true }))
  ∧ (app.cancel_scan = none → ∀ r, app.report = some r →
      handle_key env app ev =
        some (Except.ok { app := { app with report := none },
                          action := none, spawned := none, cancelSent := false })
      ∧ (ui { app with report := none }).body =
          BodyWidget.deviceList (deviceRows { app with report := none }))
  ∧ (app.cancel_scan = none → app.report = none →
      handle_key env app ev =
        some (Except.ok { app := app, action := some Action.Shutdown,
                          spawned := none, cancelSent := false })) := by
  refine ⟨?_, ?_, ?_⟩
  · intro u hu
    simp [handle_key, h, hu]
  · intro hc r hr
    constructor
    · simp [handle_key, h, hc, hr]
    · simp [ui]
  · intro hc hr
    simp [handle_key, h, hc, hr]

theorem quit_key_priority_witness :
    handle_key envOk appScanning (Event.Key ⟨KeyCode.Esc, KeyModifiers.NONE⟩) =
      some (Except.ok { app := { appScanning with cancel_scan := none },
                        action := none, spawned := none, cancelSent := true }) :=
  (quit_key_priority envOk appScanning (Event.Key ⟨KeyCode.Esc, KeyModifiers.NONE⟩) rfl).1 () rfl

theorem handle_key_enter (env : Env) (app : App) (d : DeviceInfo)
    (hd : app.devices.get? app.cursor = some d) :
    handle_key env app enterEv =
      some (Except.ok { app := { app with report := some [], cancel_scan := some () },
                        action := none, spawned := some d, cancelSent := false }) := by
  have hb : bindingOf enterEv = Binding.enter := rfl
  have hd2 : app.devices[app.cursor]? = some d := by
    rw [← List.get?_eq_getElem?]
    exact hd
  simp [handle_key, hb, hd2]

theorem deliverAll_suspicions (l : List Suspicion) :
    ∀ (a : App) (r : List Suspicion), a.report = some r →
      deliverAll a (l.map Message.Suspicion) = { a with report := some (r ++ l) } := by
  induction l with
  | nil =>
    intro a r h
    show a = { a with report := some (r ++ []) }
    rw [List.append_nil, ← h]
  | cons s l ih =>
    intro a r h
    show deliverAll (handle_message a (Message.Suspicion s)) (l.map Message.Suspicion) = _
    have h1 : handle_message a (Message.Suspicion s) = { a with report := some (r ++ [s]) } := by
      simp [handle_message, h]
    rw [h1, ih _ (r ++ [s]) rfl]
    simp

/-- Claim C8: Enter immediately creates an empty (not absent) Report and an
active session; a finding message is appended to the Report exactly when
one exists (and discarded otherwise), suspicions delivered in sequence are
appended in arrival order, and `ScanEnded` clears the session while
retaining the Report. -/
theorem enter_report_lifecycle (env : Env) (app : App) (d : DeviceInfo)
    (hd : app.devices.get? app.cursor = some d) :
    handle_key env app enterEv =
      some (Except.ok { app := { app with report := some [], cancel_scan := some () },
                        action := none, spawned := some d, cancelSent := false })
  ∧ (∀ (a : App) r sus, a.report = some r →
      handle_message a (Message.Suspicion sus) = { a with report := some (r ++ [sus]) })
  ∧ (∀ (a : App) sus, a.report = none → handle_message a (Message.Suspicion sus) = a)
  ∧ (∀ (a : App) r l, a.report = some r →
      deliverAll a (l.map Message.Suspicion) = { a with report := some (r ++ l) })
  ∧ (∀ a : App, handle_message a Message.ScanEnded = { a with cancel_scan := none }) := by
  refine ⟨handle_key_enter env app d hd, ?_, ?_, ?_, ?_⟩
  · intro a r sus h
    simp [handle_message, h]
  · intro a sus h
    simp [handle_message, h]
  · intro a r l h
    exact deliverAll_suspicions l a r h
  · intro a
    rfl

theorem enter_report_lifecycle_witness :
    handle_key envOk app1 enterEv =
      some (Except.ok { app := { app1 with report := some [], cancel_scan := some () },
                        action := none, spawned := some d1, cancelSent := false }) :=
  (enter_report_lifecycle envOk app1 d1 rfl).1

/-- Claim C1 is false on the code: from the initial state with one device,
the first Enter leaves an active session (and a Report), and a second Enter
is still acted upon — afterwards two spawned scan tasks are running at
once. -/
theorem two_active_scan_tasks_reachable :
    (sysRun envOk (sys0 [d1]) [SysEvent.input enterEv]).map
        (fun s => (s.tasks.length, s.app.cancel_scan.isSome, s.app.report.isSome))
      = some (1, true, true)
  ∧ (sysRun envOk (sys0 [d1]) [SysEvent.input enterEv, SysEvent.input enterEv]).map
        (fun s => (s.tasks.length, s.app.cancel_scan.isSome, s.app.report.isSome))
      = some (2, true, true) := by
  decide

/-- Claim C1 amended: the state holds at most one cancellation handle, but
an Enter input is acted upon regardless of an active session or Report —
whenever the cursor rests on a device it spawns one more scan task and
overwrites the handle, so several scan tasks can run simultaneously. -/
theorem enter_acts_regardless_of_session (env : Env) (s : Sys) (d : DeviceInfo)
    (hd : s.app.devices.get? s.app.cursor = some d) (hh : s.halted = false) :
    sysStep env s (SysEvent.input enterEv) =
      some { app := { s.app with report := some [], cancel_scan := some () },
             tasks := s.tasks ++ [d], bus := s.bus, halted := false } := by
  have hkey := handle_key_enter env s.app d hd
  simp [sysStep, hh, hkey]

theorem enter_acts_regardless_of_session_witness :
    sysStep envOk sysActive (SysEvent.input enterEv) =
      some { app := { sysActive.app with report := some [], cancel_scan := some () },
             tasks := [d1, d1], bus := [], halted := false } :=
  enter_acts_regardless_of_session envOk sysActive d1 rfl rfl

/-- Claim C2 is false on the code: with a failing device connection, the
Enter handler still returns success and spawns the task — no
DiscoveryError reaches the caller — while `run_scan`, executed inside the
spawned task, is where the error arises and is reduced to `ScanEnded`. -/
theorem start_scan_error_not_synchronous :
    handle_key envBadConnect app1 enterEv =
      some (Except.ok { app := { app1 with report := some [], cancel_scan := some () },
                        action := none, spawned := some d1, cancelSent := false })
  ∧ run_scan envBadConnect d1 =
      ([], Except.error ("Failed to access device: emulator-5554: gone"))
  ∧ scan_task envBadConnect d1 TaskOutcome.completed = [Message.ScanEnded] := by
  decide

/-- Claim C2 amended: device connection resolution and rule loading happen
inside the spawned background task; the start operation returns success
unconditionally, and a DiscoveryError or RuleLoadError inside the task is
never surfaced to the caller — the task just emits its single `ScanEnded`.
-/
theorem start_errors_inside_spawned_task (env : Env) (app : App) (d : DeviceInfo)
    (hd : app.devices.get? app.cursor = some d) :
    handle_key env app enterEv =
      some (Except.ok { app := { app with report := some [], cancel_scan := some () },
                        action := none, spawned := some d, cancelSent := false })
  ∧ (∀ e, env.connectDevice = Except.error e →
      scan_task env d TaskOutcome.completed = [Message.ScanEnded])
  ∧ (∀ p e, env.connectDevice = Except.ok () → env.iocFilePath = Except.ok p →
      env.loadRules = Except.error e →
      scan_task env d TaskOutcome.completed = [Message.ScanEnded]) := by
  refine ⟨handle_key_enter env app d hd, ?_, ?_⟩
  · intro e he
    simp [scan_task, run_scan, he]
  · intro p e h1 h2 h3
    simp [scan_task, run_scan, h1, h2, h3]

theorem start_errors_inside_spawned_task_witness :
    handle_key envBadConnect app1 enterEv =
      some (Except.ok { app := { app1 with report := some [], cancel_scan := some () },
                        action := none, spawned := some d1, cancelSent := false }) :=
  (start_errors_inside_spawned_task envBadConnect app1 d1 rfl).1

/-- Claim C4 is false on the code: from the initial state (empty device
directory), the Enter input makes `handle_key` evaluate the out-of-bounds
index `app.devices[app.cursor]` — the modelled panic (`none`). -/
theorem enter_on_empty_devices_panics :
    handle_key envOk initApp enterEv = none := by
  decide

/-- Claim C4 amended: handling an input never fails except in exactly two
cases — Enter aborts (out-of-bounds index panic) precisely when the cursor
rests on no device, and Ctrl+R returns an error precisely when the device
discovery listing fails; every other event yields an action or a no-op. -/
theorem handle_key_failure_characterisation (env : Env) (app : App) (ev : Event) :
    (handle_key env app ev = none ↔
      (bindingOf ev = Binding.enter ∧ app.devices.get? app.cursor = none))
  ∧ ((∃ e, handle_key env app ev = some (Except.error e)) ↔
      (bindingOf ev = Binding.refresh ∧ ∃ e, env.listDevices = Except.error e)) := by
  cases hb : bindingOf ev with
  | quit =>
    rcases hcs : app.cancel_scan with _ | u
    · rcases hr : app.report with _ | r
      · simp [handle_key, hb, hcs, hr]
      · simp [handle_key, hb, hcs, hr]
    · simp [handle_key, hb, hcs]
  | forceQuit => simp [handle_key, hb]
  | enter =>
    rcases hg : app.devices.get? app.cursor with _ | d
    · have hg2 : app.devices[app.cursor]? = none := by
        rw [← List.get?_eq_getElem?]
        exact hg
      simp [handle_key, hb, List.get?_eq_getElem?, hg2]
    · have hg2 : app.devices[app.cursor]? = some d := by
        rw [← List.get?_eq_getElem?]
        exact hg
      simp [handle_key, hb, List.get?_eq_getElem?, hg2]
  | up => simp [handle_key, hb]
  | down => simp [handle_key, hb]
  | refresh =>
    rcases hl : env.listDevices with e | ds
    · simp [handle_key, hb, refresh_devices, hl]
    · simp [handle_key, hb, refresh_devices, hl]
  | clear => simp [handle_key, hb]
  | noop => simp [handle_key, hb]

/-- Claim C7 is false on the code: after Enter with an environment whose
rule loading fails, once the task has ended and the message was observed,
an (empty) Report still exists and the findings view — not the device
list — is shown. -/
theorem rule_load_failure_leaves_report :
    (sysRun envBadRules (sys0 [d1])
        [SysEvent.input enterEv, SysEvent.resolveTask 0 TaskOutcome.completed,
         SysEvent.deliver]).map
        (fun s => (s.app.report, (ui s.app).body, s.app.cancel_scan))
      = some (some [], BodyWidget.findingsList [], none) := by
  decide

/-- Claim C7 amended: a rule-load failure for one scan attempt does not
abort the loop and adds no findings, and the session handle is cleared by
the task's `ScanEnded`; but an empty Report exists and the findings view is
shown — the operator is not left in the device list. -/
theorem rule_load_failure_keeps_findings_view (env : Env) (s : Sys) (d : DeviceInfo)
    (p e : String)
    (hd : s.app.devices.get? s.app.cursor = some d)
    (ht : s.tasks = []) (hbus : s.bus = []) (hh : s.halted = false)
    (hc : env.connectDevice = Except.ok ()) (hp : env.iocFilePath = Except.ok p)
    (hr : env.loadRules = Except.error e) :
    sysRun env s [SysEvent.input enterEv, SysEvent.resolveTask 0 TaskOutcome.completed,
                  SysEvent.deliver] =
      some { app := { s.app with report := some [], cancel_scan := none },
             tasks := [], bus := [], halted := false }
  ∧ (ui { s.app with report := some [], cancel_scan := none }).body =
      BodyWidget.findingsList [] := by
  have hkey := handle_key_enter env s.app d hd
  have hscan : scan_task env d TaskOutcome.completed = [Message.ScanEnded] := by
    simp [scan_task, run_scan, hc, hp, hr]
  constructor
  · simp [sysRun, sysStep, hh, hkey, ht, hbus, hscan, handle_message]
  · simp [ui]

theorem rule_load_failure_keeps_findings_view_witness :
    sysRun envBadRules (sys0 [d1])
        [SysEvent.input enterEv, SysEvent.resolveTask 0 TaskOutcome.completed,
         SysEvent.deliver] =
      some { app := { (sys0 [d1]).app with report := some [], cancel_scan := none },
             tasks := [], bus := [], halted := false } :=
  (rule_load_failure_keeps_findings_view envBadRules (sys0 [d1]) d1 ("ioc.yaml") ("corrupt")
    rfl rfl rfl rfl rfl rfl rfl).1

end Spytrap
